import Mathlib

/-!
Shallow embedding of the call-lifecycle and call-permission core of the
whatsapp-hubspot-calling backend.

Sources embedded here:
- `src/backend/src/models/HubSpotContact.js` (the `Call` and `CallPermission`
  sequelize models and the `CallPermission` instance methods),
- `src/backend/src/routes/calls.js` (outbound call, permission request,
  hangup),
- `src/unnamed/part_000` (the webhook router: inbound call creation,
  `/call-status` status updates, `/messaging` consent responses),
- `src/backend/src/config/config.js` (`callPermissions` limits).

Statuses are kept as the strings the JavaScript source stores.  Timestamps
are JavaScript epoch milliseconds, modelled as `Int`.  Database rows are
lists of records; sequelize `findOne(... order createdAt DESC)` is modelled
as picking the member with the greatest `createdAt`, and a row `update` as
replacing the record with the matching primary key `id`.
-/

namespace WhatsAppCalling

/-- The `Call.status` ENUM of `src/backend/src/models` (the Call model). -/
def callStatusEnum : List String :=
  ["initiated", "ringing", "in-progress", "completed", "failed", "busy",
   "no-answer", "canceled"]

/-- The `CallPermission.status` ENUM declared in the CallPermission model:
`ENUM('pending', 'approved', 'rejected', 'expired')`. -/
def permissionStatusEnum : List String :=
  ["pending", "approved", "rejected", "expired"]

/-- Terminal call statuses (spec glossary: completed, failed, busy,
no-answer, canceled). -/
def terminalCallStatuses : List String :=
  ["completed", "failed", "busy", "no-answer", "canceled"]

/-- Whether a call status string is terminal. -/
def isTerminal (s : String) : Bool :=
  terminalCallStatuses.contains s

inductive Direction where
  | inbound
  | outbound
deriving DecidableEq, Repr

/-- One row of the `calls` table (fields the embedded routes read or
write). -/
structure Call where
  id : Nat
  twilioCallSid : String
  contactId : Nat
  direction : Direction
  fromNumber : String
  toNumber : String
  status : String
  duration : Int
  startTime : Option Int
  endTime : Option Int
  recordingUrl : Option String
deriving DecidableEq, Repr

/-- One row of the `call_permissions` table. -/
structure CallPermission where
  id : Nat
  contactId : Nat
  whatsappNumber : String
  status : String
  requestedAt : Int
  respondedAt : Option Int
  expiresAt : Int
  callsUsed : Nat
  maxCalls : Nat
  consecutiveMissedCalls : Nat
  twilioMessageSid : Option String
  createdAt : Int
deriving DecidableEq, Repr

/-- `config.callPermissions.maxRequestsPerDay` in
`src/backend/src/config/config.js`. -/
def maxRequestsPerDay : Nat := 1

/-- `config.callPermissions.maxRequestsPer7Days`. -/
def maxRequestsPer7Days : Nat := 2

def hourMs : Int := 60 * 60 * 1000

def dayMs : Int := 24 * hourMs

def weekMs : Int := 7 * dayMs

/-- `CallPermission.prototype.isExpired`: `new Date() > this.expiresAt`. -/
def CallPermission.isExpired (p : CallPermission) (now : Int) : Bool :=
  decide (now > p.expiresAt)

/-- `CallPermission.prototype.canMakeCall`:
`status === 'approved' && !isExpired() && callsUsed < maxCalls &&
consecutiveMissedCalls < 4`. -/
def CallPermission.canMakeCall (p : CallPermission) (now : Int) : Bool :=
  p.status == "approved" &&
  !(p.isExpired now) &&
  decide (p.callsUsed < p.maxCalls) &&
  decide (p.consecutiveMissedCalls < 4)

/-- `CallPermission.prototype.incrementCallsUsed`. -/
def CallPermission.incrementCallsUsed (p : CallPermission) : CallPermission :=
  { p with callsUsed := p.callsUsed + 1 }

/-- `CallPermission.prototype.incrementMissedCalls`. -/
def CallPermission.incrementMissedCalls (p : CallPermission) : CallPermission :=
  { p with consecutiveMissedCalls := p.consecutiveMissedCalls + 1 }

/-- `CallPermission.prototype.resetMissedCalls`. -/
def CallPermission.resetMissedCalls (p : CallPermission) : CallPermission :=
  { p with consecutiveMissedCalls := 0 }

/-- `findOne(... order: [['createdAt', 'DESC']])` over an already-filtered
row list: the row with the greatest `createdAt` (earlier row wins ties). -/
def pickLatest : List CallPermission → Option CallPermission
  | [] => none
  | p :: ps =>
    match pickLatest ps with
    | none => some p
    | some q => if q.createdAt > p.createdAt then some q else some p

/-- The `/call-status` webhook's permission query:
`findOne({ where: { contactId, status: 'approved' }, order createdAt DESC })`
(src/unnamed/part_000, lines 234-240 and 252-258). -/
def latestApprovedForContact (perms : List CallPermission) (cid : Nat) :
    Option CallPermission :=
  pickLatest (perms.filter fun p => p.contactId == cid && p.status == "approved")

/-- The outbound route's permission query:
`findOne({ where: { contactId, whatsappNumber, status: 'approved' }, order
createdAt DESC })` (src/backend/src/routes/calls.js, lines 54-61). -/
def latestApprovedForNumber (perms : List CallPermission) (cid : Nat)
    (num : String) : Option CallPermission :=
  pickLatest (perms.filter fun p =>
    p.contactId == cid && p.whatsappNumber == num && p.status == "approved")

/-- The `/messaging` webhook's permission query:
`findOne({ where: { whatsappNumber, status: 'pending' }, order createdAt
DESC })` (src/unnamed/part_000, lines 330-336). -/
def latestPendingForNumber (perms : List CallPermission) (num : String) :
    Option CallPermission :=
  pickLatest (perms.filter fun p =>
    p.whatsappNumber == num && p.status == "pending")

/-- `row.update(...)` on a permission: replace the row with the same
primary key. -/
def updatePerm (perms : List CallPermission) (p1 : CallPermission) :
    List CallPermission :=
  perms.map fun p => if p.id == p1.id then p1 else p

/-- `row.update(...)` on a call: replace the row with the same primary
key. -/
def replaceCall (calls : List Call) (c1 : Call) : List Call :=
  calls.map fun c => if c.id == c1.id then c1 else c

/-- Payload of a Twilio `/call-status` webhook delivery (src/unnamed/part_000,
line 197): `CallSid`, `CallStatus`, optional `CallDuration`, optional
`RecordingUrl`. -/
structure CallStatusEvent where
  callSid : String
  callStatus : String
  callDuration : Option Int
  recordingUrl : Option String
deriving DecidableEq, Repr

/-- The `updates` object built and applied by the `/call-status` handler
(src/unnamed/part_000, lines 206-220): status is overwritten with the
event's status; duration and recordingUrl are set when present; `endTime`
is set to now exactly when the event is `completed` and the call has no
`endTime` yet. -/
def applyStatusToCall (now : Int) (e : CallStatusEvent) (c : Call) : Call :=
  { c with
    status := e.callStatus
    duration := e.callDuration.getD c.duration
    recordingUrl :=
      match e.recordingUrl with
      | some u => some u
      | none => c.recordingUrl
    endTime :=
      if e.callStatus == "completed" && c.endTime == none then some now
      else c.endTime }

/-- The shared database state the embedded handlers mutate. -/
structure SystemState where
  calls : List Call
  permissions : List CallPermission
deriving DecidableEq, Repr

/-- `Call.findOne({ where: { twilioCallSid } })`. -/
def findCallBySid (calls : List Call) (sid : String) : Option Call :=
  calls.find? fun c => c.twilioCallSid == sid

/-- The no-answer outcome applied to the selected permission by the
`/call-status` handler (src/unnamed/part_000, lines 242-249):
`incrementMissedCalls()`, then `status := 'expired'` when the counter has
reached 4. -/
def recordNoAnswer (p : CallPermission) : CallPermission :=
  let p1 := p.incrementMissedCalls
  if p1.consecutiveMissedCalls ≥ 4 then { p1 with status := "expired" } else p1

/-- Permission-table effect of the `no-answer` branch of `/call-status`
for an outbound call with contact `cid`. -/
def permsAfterNoAnswer (perms : List CallPermission) (cid : Nat) :
    List CallPermission :=
  match latestApprovedForContact perms cid with
  | none => perms
  | some p => updatePerm perms (recordNoAnswer p)

/-- Permission-table effect of the `answered` branch of `/call-status`
for an outbound call with contact `cid` (src/unnamed/part_000, lines
250-263): `resetMissedCalls()` on the selected permission. -/
def permsAfterAnswered (perms : List CallPermission) (cid : Nat) :
    List CallPermission :=
  match latestApprovedForContact perms cid with
  | none => perms
  | some p => updatePerm perms p.resetMissedCalls

/-- The whole `/call-status` handler (src/unnamed/part_000, lines 195-263):
resolve the call by `CallSid` (a miss is a no-op), apply the status
update to the call row, then mutate the latest approved permission of the
call's contact on a `no-answer` or `answered` status of an outbound
call. -/
def applyCallStatus (now : Int) (e : CallStatusEvent) (st : SystemState) :
    SystemState :=
  match findCallBySid st.calls e.callSid with
  | none => st
  | some call =>
    let c1 := applyStatusToCall now e call
    let perms1 :=
      if e.callStatus == "no-answer" && call.direction == Direction.outbound then
        permsAfterNoAnswer st.permissions call.contactId
      else if e.callStatus == "answered" && call.direction == Direction.outbound then
        permsAfterAnswered st.permissions call.contactId
      else st.permissions
    { calls := replaceCall st.calls c1, permissions := perms1 }

/-- Outcome of the external messaging collaborator
(`twilioService.sendCallPermissionRequest`). -/
inductive SendResult where
  | ok (messageSid : String)
  | err
deriving DecidableEq, Repr

/-- Effect of the consent-message dispatch on the freshly created
permission (src/backend/src/routes/calls.js, lines 214-241): on success the
message sid is stored; on a collaborator error the permission's status is
set to the string `'failed'`. -/
def dispatchConsent (p : CallPermission) (r : SendResult) : CallPermission :=
  match r with
  | .ok sid => { p with twilioMessageSid := some sid }
  | .err => { p with status := "failed" }

/-- The rate-limit count of `POST /permission/request`
(src/backend/src/routes/calls.js, lines 170-196): rows for the same
(contactId, whatsappNumber) with `requestedAt >= since`. -/
def countRecentRequests (perms : List CallPermission) (cid : Nat)
    (num : String) (since : Int) : Nat :=
  (perms.filter fun p =>
    p.contactId == cid && p.whatsappNumber == num &&
    decide (since ≤ p.requestedAt)).length

/-- The permission row created by `POST /permission/request`
(src/backend/src/routes/calls.js, lines 206-212): status `pending`,
`expiresAt = now + 7 days`, counters at the model defaults
(`callsUsed` 0, `maxCalls` 5, `consecutiveMissedCalls` 0). -/
def mkPendingPermission (cid : Nat) (num : String) (now : Int) (newId : Nat) :
    CallPermission :=
  { id := newId
    contactId := cid
    whatsappNumber := num
    status := "pending"
    requestedAt := now
    respondedAt := none
    expiresAt := now + weekMs
    callsUsed := 0
    maxCalls := 5
    consecutiveMissedCalls := 0
    twilioMessageSid := none
    createdAt := now }

inductive RequestResult where
  | rateLimitedDay
  | rateLimitedWeek
  | created (p : CallPermission)
deriving DecidableEq, Repr

def RequestResult.isRateLimited : RequestResult → Bool
  | .rateLimitedDay => true
  | .rateLimitedWeek => true
  | .created _ => false

/-- `POST /permission/request` (src/backend/src/routes/calls.js, lines
155-246): reject with 429 when the 24-hour request count has reached
`maxRequestsPerDay`, then when the 7-day count has reached
`maxRequestsPer7Days`; otherwise create the pending permission and
dispatch the consent message (whose failure marks the row `failed`). -/
def requestPermission (perms : List CallPermission) (cid : Nat) (num : String)
    (now : Int) (newId : Nat) (send : SendResult) :
    RequestResult × List CallPermission :=
  if maxRequestsPerDay ≤ countRecentRequests perms cid num (now - dayMs) then
    (.rateLimitedDay, perms)
  else if maxRequestsPer7Days ≤ countRecentRequests perms cid num (now - weekMs) then
    (.rateLimitedWeek, perms)
  else
    let p := dispatchConsent (mkPendingPermission cid num now newId) send
    (.created p, perms ++ [p])

/-- The `/messaging` webhook's consent-response branch (src/unnamed/part_000,
lines 327-365): the latest pending permission for the sender's number is
set to `approved` or `rejected` with `respondedAt := now`; no pending
permission is a no-op. -/
def permsAfterConsentResponse (perms : List CallPermission) (num : String)
    (accepted : Bool) (now : Int) : List CallPermission :=
  match latestPendingForNumber perms num with
  | none => perms
  | some p =>
    updatePerm perms
      { p with
        status := if accepted then "approved" else "rejected"
        respondedAt := some now }

inductive OutboundResult where
  | permissionRequired
  | initiated (callId : Nat)
  | dialFailed (callId : Nat)
deriving DecidableEq, Repr

/-- The call row created by `POST /outbound`
(src/backend/src/routes/calls.js, lines 72-82): direction outbound, status
`initiated`, empty `twilioCallSid` until the dial returns. -/
def mkOutboundCall (cid : Nat) (fromNum num : String) (now : Int)
    (newCallId : Nat) : Call :=
  { id := newCallId
    twilioCallSid := ""
    contactId := cid
    direction := .outbound
    fromNumber := fromNum
    toNumber := "whatsapp:" ++ num
    status := "initiated"
    duration := 0
    startTime := some now
    endTime := none
    recordingUrl := none }

/-- `POST /outbound` (src/backend/src/routes/calls.js, lines 36-152):
look up the latest approved permission for (contactId, number); reject
with 403 unless it exists and `canMakeCall()`; create the call row; on a
successful dial store the returned sid and `incrementCallsUsed()` on the
permission; on a dial error set the call's status to `failed` and leave
the permission untouched.  `dial` is the telephony collaborator's outcome:
the returned call sid, or `none` for a `DialError`. -/
def outboundCall (st : SystemState) (cid : Nat) (num fromNum : String)
    (now : Int) (newCallId : Nat) (dial : Option String) :
    OutboundResult × SystemState :=
  match latestApprovedForNumber st.permissions cid num with
  | none => (.permissionRequired, st)
  | some p =>
    if p.canMakeCall now then
      let call := mkOutboundCall cid fromNum num now newCallId
      match dial with
      | some sid =>
        (.initiated newCallId,
         { calls := st.calls ++ [{ call with twilioCallSid := sid }]
           permissions := updatePerm st.permissions p.incrementCallsUsed })
      | none =>
        (.dialFailed newCallId,
         { calls := st.calls ++ [{ call with status := "failed" }]
           permissions := st.permissions })
    else (.permissionRequired, st)

/-- Outcome of the telephony collaborator's terminate operation
(`twilioService.hangupCall`). -/
inductive TerminateResult where
  | ok
  | err
deriving DecidableEq, Repr

/-- `POST /:callSid/hangup` (src/backend/src/routes/calls.js, lines
305-342) acting on the resolved call: `await twilioService.hangupCall`
first, and only when it succeeds update the local row to `completed` with
an `endTime`; a collaborator error is caught by the route's handler after
skipping the local update.  The `Bool` is whether the route responds with
success. -/
def hangupCall (call : Call) (now : Int) (r : TerminateResult) : Bool × Call :=
  match r with
  | .ok => (true, { call with status := "completed", endTime := some now })
  | .err => (false, call)

/-- The call row created by `POST /voice/inbound` (src/unnamed/part_000,
lines 55-63): direction inbound, status `ringing`, the webhook's
`CallSid` as external id. -/
def mkInboundCall (sid fromNum toNum : String) (cid : Nat) (now : Int)
    (newId : Nat) : Call :=
  { id := newId
    twilioCallSid := sid
    contactId := cid
    direction := .inbound
    fromNumber := fromNum
    toNumber := toNum
    status := "ringing"
    duration := 0
    startTime := some now
    endTime := none
    recordingUrl := none }

/-- Inbound call creation (src/unnamed/part_000, lines 54-63) under the
model's unique constraint on `twilioCallSid`: when a call with the
webhook's `CallSid` already exists, `Call.create` raises a unique
constraint error caught by the route and no row is inserted (`none`);
otherwise exactly one `ringing` call is inserted. -/
def createInbound (calls : List Call) (sid fromNum toNum : String) (cid : Nat)
    (now : Int) (newId : Nat) : Option Call × List Call :=
  if calls.any (fun c => c.twilioCallSid == sid) then (none, calls)
  else
    let c := mkInboundCall sid fromNum toNum cid now newId
    (some c, calls ++ [c])

/-- Number of call rows holding a given external call sid. -/
def countCallsWithSid (calls : List Call) (sid : String) : Nat :=
  (calls.filter fun c => c.twilioCallSid == sid).length

/-- The permission-mutating operations of the embedded routes, gathered as
one event type (used to state preservation facts over every operation that
can touch the permission table). -/
inductive PermEvent where
  | noAnswerOutbound (cid : Nat)
  | answeredOutbound (cid : Nat)
  | consentResponse (num : String) (accepted : Bool) (now : Int)
  | request (cid : Nat) (num : String) (now : Int) (newId : Nat) (send : SendResult)
  | outboundPlaced (cid : Nat) (num fromNum : String) (now : Int)
      (newCallId : Nat) (dial : Option String)
deriving Repr

/-- Permission-table effect of each embedded operation. -/
def stepPerms (ev : PermEvent) (perms : List CallPermission) :
    List CallPermission :=
  match ev with
  | .noAnswerOutbound cid => permsAfterNoAnswer perms cid
  | .answeredOutbound cid => permsAfterAnswered perms cid
  | .consentResponse num acc now => permsAfterConsentResponse perms num acc now
  | .request cid num now newId send =>
    (requestPermission perms cid num now newId send).2
  | .outboundPlaced cid num fromNum now newCallId dial =>
    (outboundCall ⟨[], perms⟩ cid num fromNum now newCallId dial).2.permissions

/-! Helper lemmas about the row-selection and row-update model. -/

theorem pickLatest_mem {l : List CallPermission} {p : CallPermission}
    (h : pickLatest l = some p) : p ∈ l := by
  induction l with
  | nil => simp [pickLatest] at h
  | cons a as ih =>
    rw [pickLatest] at h
    cases hrec : pickLatest as with
    | none =>
      rw [hrec] at h
      simp only [Option.some.injEq] at h
      simp [h.symm]
    | some q =>
      rw [hrec] at h
      by_cases hc : q.createdAt > a.createdAt
      · simp only [hc, if_true, Option.some.injEq] at h
        exact List.mem_cons_of_mem _ (ih (h ▸ hrec))
      · simp only [hc, if_false, Option.some.injEq] at h
        simp [h.symm]

theorem latestApprovedForContact_spec {perms : List CallPermission} {cid : Nat}
    {p : CallPermission} (h : latestApprovedForContact perms cid = some p) :
    p ∈ perms ∧ p.contactId = cid ∧ p.status = "approved" := by
  have hm := pickLatest_mem h
  rw [List.mem_filter] at hm
  obtain ⟨h1, h2⟩ := hm
  simp only [Bool.and_eq_true, beq_iff_eq] at h2
  exact ⟨h1, h2.1, h2.2⟩

theorem latestApprovedForNumber_spec {perms : List CallPermission} {cid : Nat}
    {num : String} {p : CallPermission}
    (h : latestApprovedForNumber perms cid num = some p) :
    p ∈ perms ∧ p.contactId = cid ∧ p.whatsappNumber = num ∧
    p.status = "approved" := by
  have hm := pickLatest_mem h
  rw [List.mem_filter] at hm
  obtain ⟨h1, h2⟩ := hm
  simp only [Bool.and_eq_true, beq_iff_eq] at h2
  exact ⟨h1, h2.1.1, h2.1.2, h2.2⟩

theorem latestPendingForNumber_spec {perms : List CallPermission}
    {num : String} {p : CallPermission}
    (h : latestPendingForNumber perms num = some p) :
    p ∈ perms ∧ p.whatsappNumber = num ∧ p.status = "pending" := by
  have hm := pickLatest_mem h
  rw [List.mem_filter] at hm
  obtain ⟨h1, h2⟩ := hm
  simp only [Bool.and_eq_true, beq_iff_eq] at h2
  exact ⟨h1, h2.1, h2.2⟩

/-- A row whose primary key differs from the updated row's is untouched by
`updatePerm`. -/
theorem mem_updatePerm_of_ne {perms : List CallPermission}
    {q p1 : CallPermission} (hq : q ∈ perms) (hne : q.id ≠ p1.id) :
    q ∈ updatePerm perms p1 := by
  unfold updatePerm
  have hmap := List.mem_map_of_mem (fun p => if p.id == p1.id then p1 else p) hq
  simpa [hne] using hmap

/-- Two rows of a table whose primary keys are distinct as a list are equal
whenever their keys coincide. -/
theorem perm_eq_of_id_eq {perms : List CallPermission} {q p : CallPermission}
    (hnd : (perms.map fun r => r.id).Nodup) (hq : q ∈ perms) (hp : p ∈ perms)
    (hid : q.id = p.id) : q = p :=
  List.inj_on_of_nodup_map hnd hq hp hid

theorem recordNoAnswer_id (p : CallPermission) : (recordNoAnswer p).id = p.id := by
  simp only [recordNoAnswer, CallPermission.incrementMissedCalls]
  split <;> rfl

theorem recordNoAnswer_missed (p : CallPermission) :
    (recordNoAnswer p).consecutiveMissedCalls = p.consecutiveMissedCalls + 1 := by
  simp only [recordNoAnswer, CallPermission.incrementMissedCalls]
  split <;> rfl

/-! Sample rows used by the concrete evaluations below. -/

/-- A sample approved permission (far-future expiry, fresh counters). -/
def samplePerm : CallPermission :=
  { id := 1
    contactId := 1
    whatsappNumber := "15550001111"
    status := "approved"
    requestedAt := 0
    respondedAt := some 0
    expiresAt := 1000000000
    callsUsed := 0
    maxCalls := 5
    consecutiveMissedCalls := 0
    twilioMessageSid := none
    createdAt := 0 }

/-- A sample outbound call in the non-terminal `ringing` status. -/
def sampleOutboundCall : Call :=
  { id := 1
    twilioCallSid := "CA1"
    contactId := 1
    direction := .outbound
    fromNumber := "whatsapp:14155238886"
    toNumber := "whatsapp:15550001111"
    status := "ringing"
    duration := 0
    startTime := some 0
    endTime := none
    recordingUrl := none }

/-- The same call after completing. -/
def sampleCompletedCall : Call :=
  { sampleOutboundCall with status := "completed", endTime := some 10 }

/-! Claim C1. -/

/-- Claim C1, counterexample: a Call in the terminal status `completed`
receives a `ringing` status update and the `/call-status` handler moves it
back to `ringing` — the claim that no operation moves a Call out of a
terminal status is false on the code. -/
theorem c1_terminal_not_preserved_cex :
    isTerminal sampleCompletedCall.status = true ∧
    ((applyCallStatus 50 ⟨"CA1", "ringing", none, none⟩
        ⟨[sampleCompletedCall], []⟩).calls.map fun c => c.status) = ["ringing"] := by
  decide

/-- Claim C1 (amended): the `/call-status` handler performs no terminal
check: it overwrites the matched Call's status with the event's status
unconditionally, so after an update the status equals the event's status,
whatever the previous (possibly terminal) status was. -/
theorem c1_statusUpdate_overwrites_status (now : Int) (e : CallStatusEvent)
    (st : SystemState) (c : Call)
    (h : findCallBySid st.calls e.callSid = some c) :
    (applyCallStatus now e st).calls
      = replaceCall st.calls (applyStatusToCall now e c) ∧
    (applyStatusToCall now e c).status = e.callStatus := by
  unfold applyCallStatus
  rw [h]
  exact ⟨rfl, rfl⟩

/-- Witness for the amended C1 theorem at a concrete completed call and a
`ringing` event. -/
theorem c1_statusUpdate_overwrites_status_witness :
    findCallBySid [sampleCompletedCall] "CA1" = some sampleCompletedCall ∧
    (applyCallStatus 50 ⟨"CA1", "ringing", none, none⟩
        ⟨[sampleCompletedCall], []⟩).calls
      = replaceCall [sampleCompletedCall]
          (applyStatusToCall 50 ⟨"CA1", "ringing", none, none⟩
            sampleCompletedCall) :=
  ⟨by decide,
   (c1_statusUpdate_overwrites_status 50 ⟨"CA1", "ringing", none, none⟩
      ⟨[sampleCompletedCall], []⟩ sampleCompletedCall (by decide)).1⟩

/-! Claim C2. -/

/-- Claim C2, counterexample: delivering the same `no-answer` status event
twice is not idempotent — the second delivery increments the approved
permission's `consecutiveMissedCalls` again (2 instead of 1), so the
resulting state differs from a single delivery. -/
theorem c2_duplicate_delivery_not_idempotent_cex :
    applyCallStatus 100 ⟨"CA1", "no-answer", none, none⟩
        (applyCallStatus 100 ⟨"CA1", "no-answer", none, none⟩
          ⟨[sampleOutboundCall], [samplePerm]⟩)
      ≠ applyCallStatus 100 ⟨"CA1", "no-answer", none, none⟩
          ⟨[sampleOutboundCall], [samplePerm]⟩ ∧
    ((applyCallStatus 100 ⟨"CA1", "no-answer", none, none⟩
        (applyCallStatus 100 ⟨"CA1", "no-answer", none, none⟩
          ⟨[sampleOutboundCall], [samplePerm]⟩)).permissions.map
        fun p => p.consecutiveMissedCalls) = [2] ∧
    ((applyCallStatus 100 ⟨"CA1", "no-answer", none, none⟩
        ⟨[sampleOutboundCall], [samplePerm]⟩).permissions.map
        fun p => p.consecutiveMissedCalls) = [1] := by
  decide

/-- Claim C2 (amended): re-applying the same status event is a no-op on
the Call row itself (even with a different arrival time), but duplicate
delivery is not idempotent on the CallPermission: a second delivery of a
`no-answer` event for an outbound call increments `consecutiveMissedCalls`
again. -/
theorem c2_statusUpdate_idempotent_on_call (now now2 : Int)
    (e : CallStatusEvent) (c : Call) :
    applyStatusToCall now2 e (applyStatusToCall now e c)
      = applyStatusToCall now e c := by
  by_cases hc : (e.callStatus == "completed") = true <;>
    cases hd : e.callDuration <;>
    cases hr : e.recordingUrl <;>
    cases he : c.endTime <;>
    simp [applyStatusToCall, hc, hd, hr, he]

/-! Claim C4. -/

/-- Sample permission whose expiry instant is 100. -/
def c4Perm : CallPermission := { samplePerm with expiresAt := 100 }

/-- Claim C4, counterexample: at the expiry instant itself (`now =
expiresAt`), `canMakeCall` still returns true, because `isExpired` is the
strict `now > expiresAt`; the claim requires `now < expiresAt` and false
at the expiry instant. -/
theorem c4_canMakeCall_at_expiry_cex :
    c4Perm.expiresAt = 100 ∧ c4Perm.canMakeCall 100 = true := by
  decide

/-- Claim C4 (amended): `canMakeCall` is a pure predicate returning true
iff the permission is `approved`, `now ≤ expiresAt` (it turns false only
strictly after the expiry instant), `callsUsed < maxCalls`, and
`consecutiveMissedCalls < 4`. -/
theorem c4_canMakeCall_iff (p : CallPermission) (now : Int) :
    p.canMakeCall now = true ↔
      p.status = "approved" ∧ now ≤ p.expiresAt ∧
      p.callsUsed < p.maxCalls ∧ p.consecutiveMissedCalls < 4 := by
  simp [CallPermission.canMakeCall, CallPermission.isExpired, not_lt,
    and_assoc]

/-! Claim C8. -/

/-- Claim C8, counterexample: when the telephony collaborator's terminate
operation fails, the hangup handler leaves the local Call in its previous
non-terminal `ringing` status instead of marking it `completed`. -/
theorem c8_hangup_collaborator_failure_cex :
    (hangupCall sampleOutboundCall 5 TerminateResult.err).2.status = "ringing" ∧
    isTerminal (hangupCall sampleOutboundCall 5 TerminateResult.err).2.status
      = false := by
  decide

/-- Claim C8 (amended): the hangup handler marks the local Call
`completed` (with an `endTime`) only when the collaborator's terminate
succeeds; when the collaborator fails, the handler aborts and the local
Call is left entirely unchanged, terminal or not. -/
theorem c8_hangup_completes_only_on_terminate_ok (call : Call) (now : Int) :
    (hangupCall call now TerminateResult.ok).2.status = "completed" ∧
    (hangupCall call now TerminateResult.ok).2.endTime = some now ∧
    (hangupCall call now TerminateResult.err).2 = call :=
  ⟨rfl, rfl, rfl⟩

/-! Claim C3. -/

/-- An approved permission three missed calls deep. -/
def c3Perm : CallPermission := { samplePerm with consecutiveMissedCalls := 3 }

/-- An expired permission with a primary key distinct from `samplePerm`. -/
def c3Expired : CallPermission := { samplePerm with id := 2, status := "expired" }

/-- Claim C3: a no-answer outcome that brings `consecutiveMissedCalls` to 4
forces the permission to `expired`; `canMakeCall` is false on any expired
permission at any time; no embedded operation ever mutates an expired
permission (each permission query selects only `approved` or `pending`
rows), so the expired row survives every event unchanged; and the outbound
route's permission lookup only ever returns an `approved` permission, so no
outbound call can be placed against the expired one. -/
theorem c3_missedThreshold_expires_permission :
    (∀ p : CallPermission, 3 ≤ p.consecutiveMissedCalls →
      (recordNoAnswer p).status = "expired" ∧
      (recordNoAnswer p).consecutiveMissedCalls = p.consecutiveMissedCalls + 1) ∧
    (∀ (p : CallPermission) (now : Int), p.status = "expired" →
      p.canMakeCall now = false) ∧
    (∀ (perms : List CallPermission) (q : CallPermission) (ev : PermEvent),
      (perms.map fun r => r.id).Nodup → q ∈ perms → q.status = "expired" →
      q ∈ stepPerms ev perms) ∧
    (∀ (perms : List CallPermission) (cid : Nat) (num : String)
      (p : CallPermission),
      latestApprovedForNumber perms cid num = some p → p.status = "approved") := by
  refine ⟨?_, ?_, ?_, ?_⟩
  · intro p h
    have h4 : (recordNoAnswer p).consecutiveMissedCalls
        = p.consecutiveMissedCalls + 1 := recordNoAnswer_missed p
    have hcond : p.incrementMissedCalls.consecutiveMissedCalls ≥ 4 := by
      simp only [CallPermission.incrementMissedCalls]
      omega
    refine ⟨?_, h4⟩
    simp only [recordNoAnswer, if_pos hcond]
  · intro p now h
    simp only [CallPermission.canMakeCall, h]
    rfl
  · intro perms q ev hnd hq hs
    cases ev with
    | noAnswerOutbound cid =>
      simp only [stepPerms, permsAfterNoAnswer]
      cases hsel : latestApprovedForContact perms cid with
      | none => exact hq
      | some p =>
        obtain ⟨hpmem, _, hpstat⟩ := latestApprovedForContact_spec hsel
        refine mem_updatePerm_of_ne hq ?_
        rw [recordNoAnswer_id]
        intro hideq
        have hqp := perm_eq_of_id_eq hnd hq hpmem hideq
        rw [hqp, hpstat] at hs
        exact absurd hs (by decide)
    | answeredOutbound cid =>
      simp only [stepPerms, permsAfterAnswered]
      cases hsel : latestApprovedForContact perms cid with
      | none => exact hq
      | some p =>
        obtain ⟨hpmem, _, hpstat⟩ := latestApprovedForContact_spec hsel
        refine mem_updatePerm_of_ne hq ?_
        show q.id ≠ p.id
        intro hideq
        have hqp := perm_eq_of_id_eq hnd hq hpmem hideq
        rw [hqp, hpstat] at hs
        exact absurd hs (by decide)
    | consentResponse num acc now =>
      simp only [stepPerms, permsAfterConsentResponse]
      cases hsel : latestPendingForNumber perms num with
      | none => exact hq
      | some p =>
        obtain ⟨hpmem, _, hpstat⟩ := latestPendingForNumber_spec hsel
        refine mem_updatePerm_of_ne hq ?_
        show q.id ≠ p.id
        intro hideq
        have hqp := perm_eq_of_id_eq hnd hq hpmem hideq
        rw [hqp, hpstat] at hs
        exact absurd hs (by decide)
    | request cid num now newId send =>
      simp only [stepPerms, requestPermission]
      split
      · exact hq
      · split
        · exact hq
        · exact List.mem_append_left _ hq
    | outboundPlaced cid num fromNum now newCallId dial =>
      simp only [stepPerms, outboundCall]
      cases hsel : latestApprovedForNumber perms cid num with
      | none => exact hq
      | some p =>
        obtain ⟨hpmem, _, _, hpstat⟩ := latestApprovedForNumber_spec hsel
        by_cases hcan : p.canMakeCall now = true
        · cases dial with
          | none => simp only [hcan, if_true]; exact hq
          | some sid =>
            simp only [hcan, if_true]
            refine mem_updatePerm_of_ne hq ?_
            show q.id ≠ p.incrementCallsUsed.id
            show q.id ≠ p.id
            intro hideq
            have hqp := perm_eq_of_id_eq hnd hq hpmem hideq
            rw [hqp, hpstat] at hs
            exact absurd hs (by decide)
        · rw [Bool.not_eq_true] at hcan
          simp only [hcan, if_false]
          exact hq
  · intro perms cid num p h
    exact (latestApprovedForNumber_spec h).2.2.2

/-- Witness for C3 at concrete rows: a third consecutive miss is recorded
(counter 3 → 4) and expires the permission; the expired row blocks
`canMakeCall`, survives a further no-answer event in a two-row table, and
the outbound lookup only returns the approved row. -/
theorem c3_missedThreshold_expires_permission_witness :
    3 ≤ c3Perm.consecutiveMissedCalls ∧
    (recordNoAnswer c3Perm).status = "expired" ∧
    c3Expired.status = "expired" ∧
    c3Expired.canMakeCall 0 = false ∧
    c3Expired ∈ stepPerms (PermEvent.noAnswerOutbound 1) [c3Expired, samplePerm] ∧
    latestApprovedForNumber [samplePerm] 1 "15550001111" = some samplePerm ∧
    samplePerm.status = "approved" := by
  refine ⟨by decide,
    (c3_missedThreshold_expires_permission.1 c3Perm (by decide)).1,
    by decide,
    c3_missedThreshold_expires_permission.2.1 c3Expired 0 (by decide),
    c3_missedThreshold_expires_permission.2.2.1 [c3Expired, samplePerm]
      c3Expired (PermEvent.noAnswerOutbound 1) (by decide) (by decide) (by decide),
    by decide,
    c3_missedThreshold_expires_permission.2.2.2 [samplePerm] 1 "15550001111"
      samplePerm (by decide)⟩

/-! Claim C5. -/

/-- Claim C5: a permission request is rejected as rate-limited exactly when
the (contactId, number) request count of the last 24 hours has reached the
daily cap (1) or the count of the last 7 days has reached the weekly cap
(2); concretely, with a single prior request at time 0 a second request one
hour later is rejected by the daily limit, while a request 25 hours later
is accepted. -/
theorem c5_permissionRequest_rate_limiting :
    (∀ (perms : List CallPermission) (cid : Nat) (num : String) (now : Int)
      (newId : Nat) (send : SendResult),
      (requestPermission perms cid num now newId send).1.isRateLimited = true
        ↔ maxRequestsPerDay ≤ countRecentRequests perms cid num (now - dayMs)
          ∨ maxRequestsPer7Days ≤ countRecentRequests perms cid num (now - weekMs)) ∧
    (requestPermission [mkPendingPermission 1 "15550001111" 0 5] 1
        "15550001111" hourMs 6 (SendResult.ok "SM1")).1
      = RequestResult.rateLimitedDay ∧
    (requestPermission [mkPendingPermission 1 "15550001111" 0 5] 1
        "15550001111" (25 * hourMs) 6 (SendResult.ok "SM1")).1
      = RequestResult.created
          (dispatchConsent (mkPendingPermission 1 "15550001111" (25 * hourMs) 6)
            (SendResult.ok "SM1")) := by
  refine ⟨?_, by decide, by decide⟩
  intro perms cid num now newId send
  unfold requestPermission
  split
  · next hday => simp [RequestResult.isRateLimited, hday]
  · next hday =>
    split
    · next hweek => simp [RequestResult.isRateLimited, hweek]
    · next hweek => simp [RequestResult.isRateLimited, hday, hweek]

/-! Claim C6. -/

/-- The state right after a successful outbound dial against
`samplePerm`: the new call holds the returned sid and the permission's
`callsUsed` is already 1 although the callee has not answered. -/
def c6State : SystemState :=
  (outboundCall ⟨[], [samplePerm]⟩ 1 "15550001111" "whatsapp:14155238886"
    0 10 (some "CA9")).2

/-- Claim C6, counterexample: after a successful dial the permission's
`callsUsed` is already 1; the call then ends `no-answer` without ever
connecting, and `callsUsed` stays 1 — so a call that never connects does
increment `callsUsed`, refuting the claim that the increment happens
exactly on a successful connect. -/
theorem c6_callsUsed_without_connect_cex :
    ((c6State.permissions.map fun p => p.callsUsed) = [1]) ∧
    ((c6State.calls.map fun c => c.status) = ["initiated"]) ∧
    (((applyCallStatus 100 ⟨"CA9", "no-answer", none, none⟩ c6State).calls.map
        fun c => c.status) = ["no-answer"]) ∧
    (((applyCallStatus 100 ⟨"CA9", "no-answer", none, none⟩
        c6State).permissions.map fun p => p.callsUsed) = [1]) := by
  decide

/-- Claim C6 (amended): `callsUsed` is incremented exactly when the
outbound dial request succeeds, at call initiation and independently of
any later connect; when the dial fails the permission is left untouched
and the call row is marked `failed`.  (`consecutiveMissedCalls` is reset
to 0 only later, when an `answered` status event for the outbound call is
processed.) -/
theorem c6_callsUsed_incremented_at_dial (st : SystemState) (cid : Nat)
    (num fromNum : String) (now : Int) (ncid : Nat) (sid : String)
    (p : CallPermission)
    (hp : latestApprovedForNumber st.permissions cid num = some p)
    (hcan : p.canMakeCall now = true) :
    (outboundCall st cid num fromNum now ncid (some sid)).2.permissions
      = updatePerm st.permissions p.incrementCallsUsed ∧
    p.incrementCallsUsed.callsUsed = p.callsUsed + 1 ∧
    (outboundCall st cid num fromNum now ncid none).2.permissions
      = st.permissions ∧
    ((outboundCall st cid num fromNum now ncid none).2.calls
      = st.calls ++ [{ mkOutboundCall cid fromNum num now ncid
                        with status := "failed" }]) := by
  unfold outboundCall
  rw [hp]
  simp [hcan, CallPermission.incrementCallsUsed]

/-- Witness for the amended C6 theorem at concrete rows. -/
theorem c6_callsUsed_incremented_at_dial_witness :
    latestApprovedForNumber [samplePerm] 1 "15550001111" = some samplePerm ∧
    samplePerm.canMakeCall 0 = true ∧
    (outboundCall ⟨[], [samplePerm]⟩ 1 "15550001111" "whatsapp:14155238886"
        0 10 (some "CA9")).2.permissions
      = updatePerm [samplePerm] samplePerm.incrementCallsUsed :=
  ⟨by decide, by decide,
   (c6_callsUsed_incremented_at_dial ⟨[], [samplePerm]⟩ 1 "15550001111"
      "whatsapp:14155238886" 0 10 "CA9" samplePerm (by decide) (by decide)).1⟩

/-! Claim C7. -/

/-- Claim C7 (code bug): the dispatch-failure handler of
`POST /permission/request` sets the permission's status to the string
`'failed'` (so the row is indeed not left `pending`), but `'failed'` is
not among the values of the declared `CallPermission.status` ENUM — the
code contradicts its own data-model declaration, and the spec's status set
(which includes `failed`) is the intent. -/
theorem c7_failed_status_outside_enum :
    (∀ p : CallPermission, (dispatchConsent p SendResult.err).status = "failed") ∧
    permissionStatusEnum.contains "failed" = false ∧
    ((requestPermission [] 1 "15550001111" 0 7 SendResult.err).2.map
        fun p => p.status) = ["failed"] :=
  ⟨fun _ => rfl, by decide, by decide⟩

/-! Claim C9. -/

/-- Claim C9: an inbound call event whose `CallSid` matches no existing
call inserts exactly one new `ringing` call; when a call with that sid
already exists the unique constraint makes the creation fail and no row is
inserted; and the per-sid row count ≤ 1 is preserved. -/
theorem c9_createInbound_unique_sid (calls : List Call)
    (sid fromNum toNum : String) (cid : Nat) (now : Int) (newId : Nat) :
    (calls.any (fun c => c.twilioCallSid == sid) = false →
      createInbound calls sid fromNum toNum cid now newId
        = (some (mkInboundCall sid fromNum toNum cid now newId),
           calls ++ [mkInboundCall sid fromNum toNum cid now newId]) ∧
      (mkInboundCall sid fromNum toNum cid now newId).status = "ringing") ∧
    (calls.any (fun c => c.twilioCallSid == sid) = true →
      createInbound calls sid fromNum toNum cid now newId = (none, calls)) ∧
    (∀ s : String, countCallsWithSid calls s ≤ 1 →
      countCallsWithSid (createInbound calls sid fromNum toNum cid now newId).2 s
        ≤ 1) := by
  refine ⟨?_, ?_, ?_⟩
  · intro h
    refine ⟨?_, rfl⟩
    simp [createInbound, h]
  · intro h
    simp [createInbound, h]
  · intro s hs
    by_cases h : calls.any (fun c => c.twilioCallSid == sid) = true
    · simpa [createInbound, h] using hs
    · rw [Bool.not_eq_true] at h
      have hnil : ∀ x ∈ calls, ¬(x.twilioCallSid == sid) = true :=
        List.any_eq_false.mp h
      unfold createInbound
      rw [if_neg (by simp [h])]
      by_cases hss : sid = s
      · subst hss
        have h0 : List.filter (fun c => c.twilioCallSid == sid) calls = [] :=
          List.filter_eq_nil_iff.mpr hnil
        simp [countCallsWithSid, List.filter_append, h0, mkInboundCall]
      · have h1 : List.filter (fun c => c.twilioCallSid == s)
            [mkInboundCall sid fromNum toNum cid now newId] = [] := by
          simp [mkInboundCall, hss]
        simpa [countCallsWithSid, List.filter_append, h1] using hs

/-- Witness for C9 at concrete tables: fresh-sid insertion, the duplicate
no-op, and preservation of the one-row-per-sid bound. -/
theorem c9_createInbound_unique_sid_witness :
    ([] : List Call).any (fun c => c.twilioCallSid == "CA1") = false ∧
    createInbound [] "CA1" "whatsapp:1555" "whatsapp:1444" 1 0 3
      = (some (mkInboundCall "CA1" "whatsapp:1555" "whatsapp:1444" 1 0 3),
         [mkInboundCall "CA1" "whatsapp:1555" "whatsapp:1444" 1 0 3]) ∧
    [mkInboundCall "CA1" "whatsapp:1555" "whatsapp:1444" 1 0 3].any
        (fun c => c.twilioCallSid == "CA1") = true ∧
    createInbound [mkInboundCall "CA1" "whatsapp:1555" "whatsapp:1444" 1 0 3]
        "CA1" "whatsapp:1666" "whatsapp:1444" 2 5 4
      = (none, [mkInboundCall "CA1" "whatsapp:1555" "whatsapp:1444" 1 0 3]) ∧
    countCallsWithSid
        (createInbound [mkInboundCall "CA1" "whatsapp:1555" "whatsapp:1444" 1 0 3]
          "CA1" "whatsapp:1666" "whatsapp:1444" 2 5 4).2 "CA1" ≤ 1 :=
  ⟨by decide,
   ((c9_createInbound_unique_sid [] "CA1" "whatsapp:1555" "whatsapp:1444" 1 0
      3).1 (by decide)).1,
   by decide,
   (c9_createInbound_unique_sid
      [mkInboundCall "CA1" "whatsapp:1555" "whatsapp:1444" 1 0 3] "CA1"
      "whatsapp:1666" "whatsapp:1444" 2 5 4).2.1 (by decide),
   (c9_createInbound_unique_sid
      [mkInboundCall "CA1" "whatsapp:1555" "whatsapp:1444" 1 0 3] "CA1"
      "whatsapp:1666" "whatsapp:1444" 2 5 4).2.2 "CA1" (by decide)⟩

/-! Claim C10. -/

/-- A second approved permission of the same contact for a different
destination, created later than `samplePerm`. -/
def c10PermNew : CallPermission :=
  { samplePerm with id := 2, whatsappNumber := "15550002222", createdAt := 10 }

/-- Claim C10: when a `no-answer` or `answered` outcome is recorded for an
outbound call, the mutated CallPermission is the most recently created
approved permission of the call's contact, selected with no condition on
the call's destination: with two approved permissions `p1` (matching the
call's destination) and the later-created `p2` (a different destination),
the handler mutates `p2` and leaves `p1` untouched. -/
theorem c10_outcome_matched_on_contact_only (p1 p2 : CallPermission)
    (call : Call) (now : Int)
    (h1 : p1.status = "approved") (h2 : p2.status = "approved")
    (hc1 : p1.contactId = call.contactId) (hc2 : p2.contactId = call.contactId)
    (hlt : p1.createdAt < p2.createdAt) (hid : p1.id ≠ p2.id)
    (hdir : call.direction = Direction.outbound)
    (hnum : call.toNumber = "whatsapp:" ++ p1.whatsappNumber)
    (hne : p1.whatsappNumber ≠ p2.whatsappNumber) :
    permsAfterNoAnswer [p1, p2] call.contactId = [p1, recordNoAnswer p2] ∧
    permsAfterAnswered [p1, p2] call.contactId = [p1, p2.resetMissedCalls] ∧
    (applyCallStatus now ⟨call.twilioCallSid, "no-answer", none, none⟩
        ⟨[call], [p1, p2]⟩).permissions = [p1, recordNoAnswer p2] := by
  have hsel : latestApprovedForContact [p1, p2] call.contactId = some p2 := by
    simp [latestApprovedForContact, hc1, hc2, h1, h2, pickLatest, hlt]
  have hupd : updatePerm [p1, p2] (recordNoAnswer p2) = [p1, recordNoAnswer p2] := by
    simp [updatePerm, recordNoAnswer_id, hid]
  have hupd2 : updatePerm [p1, p2] p2.resetMissedCalls
      = [p1, p2.resetMissedCalls] := by
    simp [updatePerm, CallPermission.resetMissedCalls, hid]
  refine ⟨?_, ?_, ?_⟩
  · simp [permsAfterNoAnswer, hsel, hupd]
  · simp [permsAfterAnswered, hsel, hupd2]
  · simp [applyCallStatus, findCallBySid, hdir, permsAfterNoAnswer, hsel, hupd]

/-- Witness for C10: the outbound call goes to `samplePerm`'s destination
`15550001111`, yet the permission mutated by the no-answer outcome is
`c10PermNew`, the later-created approved permission for `15550002222`. -/
theorem c10_outcome_matched_on_contact_only_witness :
    samplePerm.status = "approved" ∧
    c10PermNew.status = "approved" ∧
    sampleOutboundCall.toNumber = "whatsapp:" ++ samplePerm.whatsappNumber ∧
    samplePerm.whatsappNumber ≠ c10PermNew.whatsappNumber ∧
    samplePerm.createdAt < c10PermNew.createdAt ∧
    (applyCallStatus 100 ⟨sampleOutboundCall.twilioCallSid, "no-answer", none,
        none⟩ ⟨[sampleOutboundCall], [samplePerm, c10PermNew]⟩).permissions
      = [samplePerm, recordNoAnswer c10PermNew] :=
  ⟨by decide, by decide, by decide, by decide, by decide,
   (c10_outcome_matched_on_contact_only samplePerm c10PermNew
      sampleOutboundCall 100 (by decide) (by decide) (by decide) (by decide)
      (by decide) (by decide) (by decide) (by decide) (by decide)).2.2⟩

end WhatsAppCalling
